import Mathlib

/-!
Verification development for the agenda-operativa core engines:
the obligation matcher (`src/core/motor_cruce.py`), the weekly-control
KPI aggregation (`src/core/control_semanal.py`) and the risk scoring
engine (`src/core/ri.py`).

Modelling conventions (shallow embedding):
* A pandas cell is modelled by `Cell`: missing (`NaN`/`NaT`), a string,
  an integer, or a timestamp (date).  Monetary amounts and day counts are
  modelled as integers (`Int`); the claims under study only compare them
  against integer thresholds.
* DataFrames are modelled as lists of typed rows.  The `_pick_col`
  duck-typing resolves each logical field to the first candidate column
  name; the embedding assumes that first candidate column is the one
  present (the spec's own "canonical column" reading) and documents each
  such choice at the definition it concerns.
* `pd.Timestamp.today()` inside `ri.py` is modelled as an explicit
  reference-date parameter `hoy`, threaded through the scoring functions.
* Python exceptions that escape a function are modelled with
  `Except String`; a raised exception aborts the computation.
* Python `str` ordering (used by `sort_values` on object columns) is code
  point lexicographic, which coincides with Lean's `String` order.
-/

namespace AgendaOp

/-- A pandas cell: missing value (NaN/NaT/None), string, integer or
timestamp (modelled as a calendar date). -/
inductive Cell where
  | na : Cell
  | str (s : String) : Cell
  | int (n : Int) : Cell
  | date (y : Int) (m : Int) (d : Int) : Cell
deriving DecidableEq, Repr

/-- A calendar date (the date part of a `pd.Timestamp`). -/
structure DateD where
  year : Int
  month : Int
  day : Int
deriving DecidableEq, Repr

/-- Python `str.strip()` (leading/trailing whitespace removed). -/
def pyStrip (s : String) : String :=
  String.mk (((s.toList.dropWhile Char.isWhitespace).reverse.dropWhile
    Char.isWhitespace).reverse)

/-- Python `str.upper()` (ASCII case mapping; the inputs under study only
exercise ASCII letters). -/
def pyUpper (s : String) : String :=
  String.mk (s.toList.map Char.toUpper)

/-- Python `str.split(sep)` for a single-character separator, on the
character list. -/
def splitOnChar (c : Char) : List Char → List (List Char)
  | [] => [[]]
  | x :: xs =>
    match splitOnChar c xs with
    | [] => [[]]
    | h :: t => if x = c then [] :: h :: t else (x :: h) :: t

/-- Python `str.split("-")`. -/
def pySplitDash (s : String) : List String :=
  (splitOnChar (Char.ofNat 45) s.toList).map String.mk

/-- Python `str.isdigit()` for ASCII digits: nonempty and all digits. -/
def pyIsDigit (s : String) : Bool :=
  !s.toList.isEmpty && s.toList.all Char.isDigit

/-- Numeric value of an all-digit character list. -/
def digitsToNat (l : List Char) : Option Nat :=
  if l.isEmpty || !l.all Char.isDigit then none
  else some (l.foldl (fun acc c => acc * 10 + (c.toNat - 48)) 0)

/-- Python `int(s)` on a string: optional surrounding whitespace, optional
sign, decimal digits (the digit-grouping underscores Python also accepts do
not occur in the data under study). -/
def pyToInt (s : String) : Option Int :=
  match (pyStrip s).toList with
  | '-' :: rest => (digitsToNat rest).map (fun n => -(n : Int))
  | '+' :: rest => (digitsToNat rest).map (fun n => (n : Int))
  | l => (digitsToNat l).map (fun n => (n : Int))

/-- Gregorian leap year. -/
def isLeap (y : Int) : Bool := y % 4 = 0 && (y % 100 ≠ 0 || y % 400 = 0)

/-- Length of a month (1-12) in year `y`; `0` outside that range. -/
def daysInMonth (y m : Int) : Int :=
  if m = 1 then 31 else if m = 2 then (if isLeap y then 29 else 28)
  else if m = 3 then 31 else if m = 4 then 30 else if m = 5 then 31
  else if m = 6 then 30 else if m = 7 then 31 else if m = 8 then 31
  else if m = 9 then 30 else if m = 10 then 31 else if m = 11 then 30
  else if m = 12 then 31 else 0

/-- Days in year `y` strictly before month `m`. -/
def daysBeforeMonth (y m : Int) : Int :=
  (if m > 1 then 31 else 0) + (if m > 2 then (if isLeap y then 29 else 28) else 0)
    + (if m > 3 then 31 else 0) + (if m > 4 then 30 else 0)
    + (if m > 5 then 31 else 0) + (if m > 6 then 30 else 0)
    + (if m > 7 then 31 else 0) + (if m > 8 then 31 else 0)
    + (if m > 9 then 30 else 0) + (if m > 10 then 31 else 0)
    + (if m > 11 then 30 else 0)

/-- Rata-die style day number of a date; differences of `rd` values are
what pandas reports as `.days` between two timestamps. -/
def rd (d : DateD) : Int :=
  365 * (d.year - 1) + (d.year - 1).fdiv 4 - (d.year - 1).fdiv 100
    + (d.year - 1).fdiv 400 + daysBeforeMonth d.year d.month + d.day

/-- Is `y-m-d` a valid calendar date (what `datetime.date` accepts)? -/
def validDate (y m d : Int) : Bool :=
  1 ≤ m && m ≤ 12 && 1 ≤ d && d ≤ daysInMonth y m

/-- Two-digit zero padding, Python `"{:02d}".format`. -/
def pad2 (n : Int) : String :=
  if 0 ≤ n ∧ n < 10 then "0" ++ toString n else toString n

/-- Four-digit zero padding (strftime `%Y`). -/
def pad4 (n : Int) : String :=
  if 0 ≤ n ∧ n < 10 then "000" ++ toString n
  else if 0 ≤ n ∧ n < 100 then "00" ++ toString n
  else if 0 ≤ n ∧ n < 1000 then "0" ++ toString n
  else toString n

/-- ISO rendering of a date, used for `str()` of a timestamp cell. -/
def isoDate (y m d : Int) : String :=
  pad4 y ++ "-" ++ pad2 m ++ "-" ++ pad2 d

/-- Python `str(cell)` (no NaN guard: `str(nan)` is `"nan"`). -/
def pyStr (c : Cell) : String :=
  match c with
  | .na => "nan"
  | .str s => s
  | .int n => toString n
  | .date y m d => isoDate y m d ++ " 00:00:00"

/-- `pd.to_datetime(cell, errors="coerce")` for one cell: timestamps pass
through, ISO `YYYY-MM-DD` strings parse, anything else coerces to `NaT`.
(The wider set of string formats pandas accepts is not exercised by the
claims under study.) -/
def cellToDate (c : Cell) : Option DateD :=
  match c with
  | .date y m d => if validDate y m d then some ⟨y, m, d⟩ else none
  | .str s =>
    match (pySplitDash (pyStrip s)).map (fun t => digitsToNat t.toList) with
    | [some y, some m, some d] =>
      if validDate y m d then some ⟨(y : Int), (m : Int), (d : Int)⟩ else none
    | _ => none
  | _ => none

/-- `pd.to_numeric(cell, errors="coerce")`: integers pass through, numeric
strings parse, anything else coerces to `NaN`.  (Fractional literals are
not exercised by the claims under study.) -/
def cellNum (c : Cell) : Option Int :=
  match c with
  | .int n => some n
  | .str s => pyToInt s
  | _ => none

/-- `pd.isna(cell)`. -/
def cellIsNa (c : Cell) : Bool :=
  match c with
  | .na => true
  | _ => false

/-! ## `src/core/motor_cruce.py` -/

/-- `motor_cruce.safe_str`: empty string for NaN, else `str(x).strip()`. -/
def safe_str (x : Cell) : String :=
  if cellIsNa x then "" else pyStrip (pyStr x)

/-- `motor_cruce.parse_terminacion`: split the cohort cell on `"-"` and keep
the all-digit fragments as integers; NaN gives the empty list. -/
def parse_terminacion (terminacion : Cell) : List Int :=
  if cellIsNa terminacion then []
  else ((pySplitDash (pyStr terminacion)).filter pyIsDigit).map
    (fun x => ((digitsToNat x.toList).getD 0 : Int))

/-- `motor_cruce.ultimo_digito_cuit`: last character of `str(cuit).strip()`
read as a digit; `None` when that raises (empty string or non-digit). -/
def ultimo_digito_cuit (cuit : Cell) : Option Int :=
  match (pyStrip (pyStr cuit)).toList.getLast? with
  | none => none
  | some ch => if ch.isDigit then some ((ch.toNat - 48 : Nat) : Int) else none

/-- `motor_cruce.construir_fecha_vto`: `pd.Timestamp(date(anio, mes, dia))`;
`datetime.date` raises `ValueError` on an invalid calendar combination, which
propagates out of the matcher. -/
def construir_fecha_vto (anio mes dia : Int) : Except String DateD :=
  if validDate anio mes dia then .ok ⟨anio, mes, dia⟩
  else .error "ValueError: invalid date"

/-- `motor_cruce.semaforo_por_dias`. -/
def semaforo_por_dias (dias : Int) : String :=
  if dias < 0 then "🔴" else if dias ≤ 7 then "🟠" else "🟢"

/-- One row of the (column-normalized) `clientes` table; only the columns
the matcher reads are modelled. -/
structure ClienteRow where
  cuit : Cell
  razon_social : Cell
  tipo_contibuyente : Cell
  monotributo : Cell
  iva : Cell
  iibb_corr : Cell
  iibb_chaco : Cell
  ts_corr : Cell
deriving DecidableEq, Repr

/-- One row of the (column-normalized) `vencimientos` rule table. -/
structure VencRow where
  impuesto : Cell
  organismo : Cell
  terminacion : Cell
  mes : Cell
  dia : Cell
deriving DecidableEq, Repr

/-- `motor_cruce.es_monotributista`. -/
def es_monotributista (cli : ClienteRow) : Bool :=
  pyUpper (safe_str cli.tipo_contibuyente) = "MONO"
    || pyUpper (safe_str cli.monotributo) = "SI"

/-- `motor_cruce.responsabilidades_cliente`: the set of (impuesto,
organismo) pairs activated by the client's registration flags, modelled as
the list built in flag order (only membership and emptiness are consumed). -/
def responsabilidades_cliente (cli : ClienteRow) : List (String × String) :=
  (if pyUpper (safe_str cli.iva) = "SI" then [("IVA", "ARCA")] else [])
    ++ (if pyUpper (safe_str cli.iibb_corr) = "SI" then [("IIBB", "DGR")] else [])
    ++ (if pyUpper (safe_str cli.iibb_chaco) = "SI" then [("IIBB", "ATP(CHACO)")] else [])
    ++ (if pyUpper (safe_str cli.ts_corr) = "SI" then [("TS", "ACOR")] else [])

/-- One emitted agenda row (`registros.append({...})` in
`generar_agenda_general`). -/
structure AgendaEntry where
  cuit : String
  cliente : String
  impuesto : String
  organismo : String
  periodo_estimado : String
  fecha_vto : DateD
  dias_restantes : Int
  semaforo : String
deriving DecidableEq, Repr

/-- `int(cell)` in Python: integers pass, numeric strings parse, NaN and
other values raise (the error aborts the computation). -/
def pyInt (c : Cell) : Except String Int :=
  match c with
  | .int n => .ok n
  | .str s =>
    match pyToInt s with
    | some n => .ok n
    | none => .error "ValueError: invalid literal for int"
  | .na => .error "ValueError: cannot convert float NaN to integer"
  | .date _ _ _ => .error "TypeError: cannot convert date to int"

/-- Inner body of the `for _, vto in vencimientos.iterrows()` loop of
`generar_agenda_general` for one rule row: `.ok none` when a filter skips
the row, `.ok (some entry)` when an entry is appended, `.error` when the
row raises (non-numeric month/day or invalid calendar date). -/
def procesar_vto (resp : List (String × String)) (dig : Int)
    (cuitS clienteS : String) (vto : VencRow) (hoy : DateD) :
    Except String (Option AgendaEntry) :=
  if (pyUpper (safe_str vto.impuesto), pyUpper (safe_str vto.organismo))
      ∉ resp then .ok none
  else if dig ∉ parse_terminacion vto.terminacion then .ok none
  else
    match pyInt vto.mes with
    | .error msg => .error msg
    | .ok mes =>
      match pyInt vto.dia with
      | .error msg => .error msg
      | .ok dia =>
        match construir_fecha_vto hoy.year mes dia with
        | .error msg => .error msg
        | .ok fecha_vto =>
          .ok (some
            ⟨cuitS, clienteS, pyUpper (safe_str vto.impuesto),
              pyUpper (safe_str vto.organismo),
              toString (if mes ≤ hoy.month then hoy.year else hoy.year - 1)
                ++ "-" ++ pad2 mes,
              fecha_vto, rd fecha_vto - rd hoy,
              semaforo_por_dias (rd fecha_vto - rd hoy)⟩)

/-- The rule loop of `generar_agenda_general` for one client: the entries
appended for this client, in rule order. -/
def registros_vtos (resp : List (String × String)) (dig : Int)
    (cuitS clienteS : String) (hoy : DateD) :
    List VencRow → Except String (List AgendaEntry)
  | [] => .ok []
  | vto :: rest =>
    match procesar_vto resp dig cuitS clienteS vto hoy with
    | .error msg => .error msg
    | .ok e =>
      match registros_vtos resp dig cuitS clienteS hoy rest with
      | .error msg => .error msg
      | .ok tail =>
        match e with
        | some entry => .ok (entry :: tail)
        | none => .ok tail

/-- The client loop body of `generar_agenda_general` for one client row:
its `continue` guards (missing cuit/name, monotributo, unavailable digit,
empty responsibility set) yield no entries. -/
def registros_cliente (cli : ClienteRow) (vencimientos : List VencRow)
    (hoy : DateD) : Except String (List AgendaEntry) :=
  if cellIsNa cli.cuit || cellIsNa cli.razon_social then .ok []
  else if es_monotributista cli then .ok []
  else
    match ultimo_digito_cuit cli.cuit with
    | none => .ok []
    | some dig =>
      if responsabilidades_cliente cli = [] then .ok []
      else registros_vtos (responsabilidades_cliente cli) dig (pyStr cli.cuit)
        (safe_str cli.razon_social) hoy vencimientos

/-- The full `registros` list accumulated by the two nested loops of
`generar_agenda_general`, in generation order. -/
def registros (clientes : List ClienteRow) (vencimientos : List VencRow)
    (hoy : DateD) : Except String (List AgendaEntry) :=
  match clientes with
  | [] => .ok []
  | cli :: rest =>
    match registros_cliente cli vencimientos hoy with
    | .error msg => .error msg
    | .ok here =>
      match registros rest vencimientos hoy with
      | .error msg => .error msg
      | .ok tail => .ok (here ++ tail)

/-- The deduplication key of `agenda.drop_duplicates(subset=["cuit",
"impuesto", "organismo", "periodo_estimado"])`. -/
def agendaKey (e : AgendaEntry) : String × String × String × String :=
  (e.cuit, e.impuesto, e.organismo, e.periodo_estimado)

/-- Helper for `dedupeBy`: drop rows whose key was already seen. -/
def dedupeByAux {α κ : Type} [DecidableEq κ] (key : α → κ) (seen : List κ) :
    List α → List α
  | [] => []
  | x :: xs =>
    if key x ∈ seen then dedupeByAux key seen xs
    else x :: dedupeByAux key (key x :: seen) xs

/-- `DataFrame.drop_duplicates` (keep the first row for each key). -/
def dedupeBy {α κ : Type} [DecidableEq κ] (key : α → κ) (l : List α) :
    List α :=
  dedupeByAux key [] l

/-- The ordering of `agenda.sort_values(["fecha_vto", "cliente",
"impuesto"])`: ascending by due date, then client name, then tax-type. -/
def agendaLe (a b : AgendaEntry) : Prop :=
  rd a.fecha_vto < rd b.fecha_vto
    ∨ (rd a.fecha_vto = rd b.fecha_vto
        ∧ (a.cliente < b.cliente
            ∨ (a.cliente = b.cliente ∧ a.impuesto ≤ b.impuesto)))

theorem string_lt_iff_data (a b : String) : a < b ↔ a.data < b.data :=
  String.lt_iff_toList_lt

theorem string_le_iff_data (a b : String) : a ≤ b ↔ a.data ≤ b.data :=
  String.le_iff_toList_le

theorem string_eq_iff_data (a b : String) : a = b ↔ a.data = b.data :=
  ⟨fun h => by rw [h], fun h => String.toList_inj.mp h⟩

theorem agendaLe_iff_data (a b : AgendaEntry) : agendaLe a b ↔
    (rd a.fecha_vto < rd b.fecha_vto
      ∨ (rd a.fecha_vto = rd b.fecha_vto
          ∧ (a.cliente.data < b.cliente.data
              ∨ (a.cliente.data = b.cliente.data
                  ∧ a.impuesto.data ≤ b.impuesto.data)))) := by
  unfold agendaLe
  rw [string_lt_iff_data, string_le_iff_data, string_eq_iff_data]

instance agendaLeDec : DecidableRel agendaLe := fun a b =>
  decidable_of_iff _ (agendaLe_iff_data a b).symm

/-- The sorting step of `generar_agenda_general` (stable comparison sort on
the three columns). -/
def sortAgenda (l : List AgendaEntry) : List AgendaEntry :=
  List.insertionSort agendaLe l

/-- `motor_cruce.generar_agenda_general`: accumulate `registros`, then
deduplicate on the logical key keeping the first occurrence, then sort.
The early `if agenda.empty: return agenda` returns the same (empty) value
as deduplicating and sorting the empty list, so it is not a separate case. -/
def generar_agenda_general (clientes : List ClienteRow)
    (vencimientos : List VencRow) (hoy : DateD) :
    Except String (List AgendaEntry) :=
  match registros clientes vencimientos hoy with
  | .error msg => .error msg
  | .ok regs => .ok (sortAgenda (dedupeBy agendaKey regs))

/-! ## `src/core/control_semanal.py` -/

/-- Result of `control_semanal.kpis`. -/
structure KpiOut where
  obligaciones : Nat
  vencidas : Nat
  ok : Nat
  clientes : Nat
deriving DecidableEq, Repr

/-- `control_semanal.kpis`, generic in the frame's row type: `columns` is
the frame's column-name list and `cellOf` reads a named cell of a row.
`vencidas`/`ok` count rows whose `estado_agenda` equals the tag, guarded by
the column-existence check; `clientes` is `nunique` of `cliente` (distinct
non-NaN values). -/
def kpis {ρ : Type} (columns : List String) (cellOf : ρ → String → Cell)
    (rows : List ρ) : KpiOut :=
  if rows.isEmpty then ⟨0, 0, 0, 0⟩
  else
    { obligaciones := rows.length
      vencidas :=
        if "estado_agenda" ∈ columns then
          rows.countP (fun r => cellOf r "estado_agenda" == Cell.str "VENCIDO")
        else 0
      ok :=
        if "estado_agenda" ∈ columns then
          rows.countP (fun r => cellOf r "estado_agenda" == Cell.str "OK")
        else 0
      clientes :=
        if "cliente" ∈ columns then
          (dedupeBy id ((rows.map (fun r => cellOf r "cliente")).filter
            (fun c => !cellIsNa c))).length
        else 0 }

/-- Column set of the frame `generar_agenda_general` returns: exactly the
keys of the appended `registros` record (in particular no `estado_agenda`
column). -/
def agendaColumns : List String :=
  ["cuit", "cliente", "impuesto", "organismo", "periodo_estimado",
   "fecha_vto", "dias_restantes", "semaforo"]

/-- Cell access on an agenda row, by column name. -/
def agendaCell (e : AgendaEntry) (c : String) : Cell :=
  if c = "cuit" then .str e.cuit
  else if c = "cliente" then .str e.cliente
  else if c = "impuesto" then .str e.impuesto
  else if c = "organismo" then .str e.organismo
  else if c = "periodo_estimado" then .str e.periodo_estimado
  else if c = "fecha_vto" then
    .date e.fecha_vto.year e.fecha_vto.month e.fecha_vto.day
  else if c = "dias_restantes" then .int e.dias_restantes
  else if c = "semaforo" then .str e.semaforo
  else .na

/-! ## `src/core/ri.py`

The `_pick_col` candidate lists are resolved to their first candidate
(`dias_restantes`, `fecha_vto`, `total_deuda`, `fecha_actualizacion`,
`periodo`, `fecha`, `estado`, `canal`, `organismo`, ...): the row
structures below carry exactly those canonical columns, and a missing
*value* is the `Cell.na` cell.  `pd.Timestamp.today()` is the explicit
parameter `hoy`. -/

/-- `ri._safe_str` (note: unlike `motor_cruce.safe_str`, no strip). -/
def ri_safe_str (x : Cell) : String :=
  if cellIsNa x then "" else pyStr x

/-- One row of a client's agenda slice handed to the scoring engine. -/
structure RiVtoRow where
  impuesto : Cell
  organismo : Cell
  periodo_estimado : Cell
  fecha_vto : Cell
  dias_restantes : Cell
deriving DecidableEq, Repr

/-- One row of a client's debt table. -/
structure DeudaRow where
  total_deuda : Cell
  organismo : Cell
  fecha_actualizacion : Cell
  periodo : Cell
deriving DecidableEq, Repr

/-- One row of a client's communication log. -/
structure ComRow where
  fecha : Cell
  estado : Cell
  canal : Cell
deriving DecidableEq, Repr

/-- `ri._deuda_total`: numeric coercion of the amount column, `NaN → 0`,
summed. -/
def deuda_total (rows : List DeudaRow) : Int :=
  (rows.map (fun r => (cellNum r.total_deuda).getD 0)).sum

/-- String `≤` as the sort relation of pandas on object columns. -/
def pyStrLe (a b : String) : Prop := a ≤ b

instance pyStrLeDec : DecidableRel pyStrLe := fun a b =>
  decidable_of_iff _ (string_le_iff_data a b).symm

instance pyStrLeTotal : IsTotal String pyStrLe := ⟨fun a b => le_total a b⟩

instance pyStrLeTrans : IsTrans String pyStrLe :=
  ⟨fun _ _ _ h h2 => le_trans h h2⟩

/-- `ri._organismos`: stringified, stripped organism names with literal
`"nan"` replaced by the empty string, first-occurrence uniques, sorted. -/
def organismos (rows : List DeudaRow) : List String :=
  List.insertionSort pyStrLe (dedupeBy id (rows.map (fun r =>
    let s := pyStrip (pyStr r.organismo)
    if s = "nan" then "" else s)))

/-- Maximum of a list of integers (`Series.max` on a nonempty series);
`0` for the empty list (unreachable under the callers' guards). -/
def maxList (l : List Int) : Int :=
  match l with
  | [] => 0
  | x :: xs => xs.foldl max x

/-- The `'YYYY-MM'`/`'YYYYMM'` period normalization of
`ri._antiguedad_max_meses` (lines 76-82) followed by `to_datetime` of
`p + "-01"`. -/
def parsePeriodo (c : Cell) : Option DateD :=
  let p0 := pyStrip (pyStr c)
  let p1 := String.mk (p0.toList.map (fun ch => if ch = '/' then '-' else ch))
  let p2 := String.mk (p1.toList.filter (fun ch => ch ≠ ' '))
  let p3 :=
    if p2.toList.length = 6 ∧ p2.toList.all Char.isDigit then
      String.mk (p2.toList.take 4) ++ "-" ++ String.mk (p2.toList.drop 4)
    else p2
  cellToDate (.str (p3 ++ "-01"))

/-- `ri._antiguedad_max_meses`: months ≈ days/30 with Python `int()`
truncation toward zero (`Int.tdiv`); applied per row and maximized, which
equals truncating the maximum since truncation is monotone.  Rows whose
date is NaT contribute `0` (the `fillna(0)`). -/
def antiguedad_max_meses (rows : List DeudaRow) (hoy : DateD) : Int :=
  if rows.isEmpty then 0
  else
    let fechas := rows.map (fun r => cellToDate r.fecha_actualizacion)
    if fechas.any Option.isSome then
      maxList (fechas.map (fun f =>
        match f with
        | some d => Int.tdiv (rd hoy - rd d) 30
        | none => 0))
    else
      let periodos := rows.map (fun r => parsePeriodo r.periodo)
      if periodos.any Option.isSome then
        maxList (periodos.map (fun f =>
          match f with
          | some d => Int.tdiv (rd hoy - rd d) 30
          | none => 0))
      else 0

/-- One display row of a due-date bucket (`_rows_to_list`): the renamed
columns, the `%d/%m/%Y`-formatted due date and the numeric days cell. -/
structure BucketRow where
  impuesto : Cell
  organismo : Cell
  periodo : Cell
  fecha_vto : Cell
  dias_restantes : Option Int
deriving DecidableEq, Repr

/-- `strftime("%d/%m/%Y")` after `to_datetime` coercion; NaT gives NaN. -/
def fmtFecha (c : Cell) : Cell :=
  match cellToDate c with
  | some d => .str (pad2 d.day ++ "/" ++ pad2 d.month ++ "/" ++ pad4 d.year)
  | none => .na

/-- Projection of one agenda row to its bucket display row. -/
def toDisplay (r : RiVtoRow) : BucketRow :=
  ⟨r.impuesto, r.organismo, r.periodo_estimado, fmtFecha r.fecha_vto,
    cellNum r.dias_restantes⟩

/-- Mask `df[col_dias] <= 7` (NaN compares false). -/
def critB (r : RiVtoRow) : Bool :=
  match cellNum r.dias_restantes with
  | some d => d ≤ 7
  | none => false

/-- Mask `(df[col_dias] >= 8) & (df[col_dias] <= 30)`. -/
def proxB (r : RiVtoRow) : Bool :=
  match cellNum r.dias_restantes with
  | some d => 8 ≤ d && d ≤ 30
  | none => false

/-- Mask `df[col_dias] > 30`. -/
def futB (r : RiVtoRow) : Bool :=
  match cellNum r.dias_restantes with
  | some d => 30 < d
  | none => false

/-- Boolean comparison for `sort_values("dias_restantes")` with NaN placed
last. -/
def bucketLeB (x y : Option Int) : Bool :=
  match x, y with
  | some a, some b => a ≤ b
  | some _, none => true
  | none, some _ => false
  | none, none => true

/-- Sort relation of `_rows_to_list` on display rows. -/
def bucketRowLe (x y : BucketRow) : Prop :=
  bucketLeB x.dias_restantes y.dias_restantes = true

instance bucketRowLeDec : DecidableRel bucketRowLe := fun x y =>
  inferInstanceAs
    (Decidable (bucketLeB x.dias_restantes y.dias_restantes = true))

/-- `ri._rows_to_list` (column selection/renaming, date formatting and the
ascending sort on the numeric days column). -/
def rows_to_list (part : List RiVtoRow) : List BucketRow :=
  List.insertionSort bucketRowLe (part.map toDisplay)

/-- The three bucket lists of `ri._vencimientos_buckets`. -/
structure Buckets where
  criticos : List BucketRow
  proximos : List BucketRow
  futuros : List BucketRow
deriving DecidableEq, Repr

/-- `ri._vencimientos_buckets`: filter the client's agenda rows by the
three days-remaining masks (canonical `dias_restantes` column present, so
the fallback recomputation from `fecha_vto` is not taken). -/
def vencimientos_buckets (rows : List RiVtoRow) : Buckets :=
  if rows.isEmpty then ⟨[], [], []⟩
  else
    ⟨rows_to_list (rows.filter critB), rows_to_list (rows.filter proxB),
      rows_to_list (rows.filter futB)⟩

/-- `ri._score_vencimientos`. -/
def score_vencimientos (buckets : Buckets) : Nat :=
  min 30 (buckets.criticos.length * 15) + min 10 (buckets.proximos.length * 3)

/-- `ri._score_deuda`. -/
def score_deuda (total_deuda : Int) (antiguedad_meses : Int) : Nat :=
  let monto : Nat :=
    if total_deuda ≤ 0 then 0
    else if total_deuda ≤ 100000 then 10
    else if total_deuda ≤ 500000 then 20
    else 30
  let ant : Nat :=
    if antiguedad_meses ≥ 6 then 10
    else if antiguedad_meses ≥ 3 then 5
    else 0
  min 40 (monto + ant)

/-- The `info` dict of `ri._score_comunicacion`; the `"—"` placeholder of
`dias_sin_respuesta` is `none`. -/
structure InfoCom where
  estado : String
  canal_recomendado : String
  dias_sin_respuesta : Option Int
  accion_sugerida : Option String
deriving DecidableEq, Repr

/-- First row attaining the maximal date (the `sort_values(desc).iloc[0]`
of `_score_comunicacion`; ties between equal timestamps are not exercised
by the claims). -/
def pickLatest : DateD × ComRow → List (DateD × ComRow) → DateD × ComRow
  | best, [] => best
  | best, x :: xs => pickLatest (if rd best.1 < rd x.1 then x else best) xs

/-- `ri._score_comunicacion`. -/
def score_comunicacion (rows : List ComRow) (hoy : DateD) : Nat × InfoCom :=
  if rows.isEmpty then (0, ⟨"SIN HISTORIAL", "WhatsApp", none, none⟩)
  else
    let dated := rows.filterMap (fun r => (cellToDate r.fecha).map (fun d => (d, r)))
    let canalDias : String × Option Int :=
      match dated with
      | [] => ("—", none)
      | x :: xs =>
        let ult := pickLatest x xs
        let canal := pyStrip (ri_safe_str ult.2.canal)
        ((if canal = "" then "WhatsApp" else canal), some (rd hoy - rd ult.1))
    let est := rows.map (fun r => pyUpper (pyStr r.estado))
    let n_pend := est.countP (fun s => s == "PENDIENTE")
    let n_env := est.countP (fun s => s == "ENVIADO")
    let n_resp := est.countP (fun s => s == "RESPONDIDO")
    let base : Nat × String × Option String :=
      if n_pend > 0 then
        (min 15 (n_pend * 8), "PENDIENTE", some "Recontactar / solicitar respuesta")
      else if n_env > 0 && n_resp == 0 then
        (6, "ENVIADO SIN RESPUESTA", some "Confirmar recepción")
      else (0, "OK", none)
    let aged : Nat × Option String :=
      match canalDias.2 with
      | some d =>
        if d ≥ 15 then
          (base.1 + 5, (base.2.2).orElse (fun _ => some "Recontactar (15+ días)"))
        else if d ≥ 7 then (base.1 + 3, base.2.2)
        else (base.1, base.2.2)
      | none => (base.1, base.2.2)
    (min 20 aged.1, ⟨base.2.1, canalDias.1, canalDias.2, aged.2⟩)

/-- `ri._nivel_color`. -/
def nivel_color (score_total : Nat) : String × String :=
  if 60 ≤ score_total then ("CRÍTICO", "🔴")
  else if 35 ≤ score_total then ("ALTO", "🔴")
  else if 20 ≤ score_total then ("MEDIO", "🟠")
  else ("BAJO", "🟢")

/-- `ri._accion_principal`. -/
def accion_principal (nivel : String) (deuda : Int) (ncrit nprox : Nat) :
    String :=
  if deuda > 0 then "Evaluar pago o plan de pagos"
  else if ncrit > 0 then "Priorizar presentaciones críticas"
  else if nprox > 0 then "Organizar presentaciones próximas"
  else if nivel = "CRÍTICO" ∨ nivel = "ALTO" then
    "Revisar situación fiscal integral"
  else "Operación normal"

/-- The `composicion` sub-dict of the result. -/
structure Composicion where
  vencimientos : Nat
  deudas : Nat
  comunicacion : Nat
  total : Nat
deriving DecidableEq, Repr

/-- The `resumen` sub-dict of the result. -/
structure Resumen where
  score : Nat
  nivel : String
  color : String
  accion_sugerida : String
  chips : List String
  composicion : Composicion
deriving DecidableEq, Repr

/-- The `riesgo_deuda` sub-dict of the result. -/
structure RiesgoDeuda where
  total_deuda : Int
  organismos : List String
  antiguedad_max_meses : Int
  accion_sugerida : Option String
deriving DecidableEq, Repr

/-- The full dict returned by `ri.ri_pro_cliente`. -/
structure RiResult where
  resumen : Resumen
  riesgo_vencimientos : Buckets
  riesgo_deuda : RiesgoDeuda
  estado_comunicacion : InfoCom
deriving DecidableEq, Repr

/-- `ri.ri_pro_cliente`. -/
def ri_pro_cliente (vencimientos_cliente : List RiVtoRow)
    (deudas_cliente : List DeudaRow) (comunicaciones_cliente : List ComRow)
    (hoy : DateD) : RiResult :=
  let buckets := vencimientos_buckets vencimientos_cliente
  let ncrit := buckets.criticos.length
  let nprox := buckets.proximos.length
  let score_v := score_vencimientos buckets
  let deuda := deuda_total deudas_cliente
  let orgs := organismos deudas_cliente
  let ant_meses := antiguedad_max_meses deudas_cliente hoy
  let score_d := score_deuda deuda ant_meses
  let com := score_comunicacion comunicaciones_cliente hoy
  let score_c := com.1
  let info_c := com.2
  let score_total := score_v + score_d + score_c
  let nivel := (nivel_color score_total).1
  let color := (nivel_color score_total).2
  let accion := accion_principal nivel deuda ncrit nprox
  let chips :=
    (if deuda > 0 then ["Deuda exigible"] else [])
      ++ (if ncrit > 0 then ["Vencimientos críticos"]
          else if nprox > 0 then ["Vencimientos próximos"] else [])
      ++ (if info_c.estado ≠ "" ∧ info_c.estado ∉ ["—", "OK"] then
            ["Comunicación: " ++ info_c.estado]
          else [])
  { resumen :=
      { score := score_total
        nivel := nivel
        color := color
        accion_sugerida := accion
        chips := chips
        composicion :=
          { vencimientos := score_v
            deudas := score_d
            comunicacion := score_c
            total := score_total } }
    riesgo_vencimientos := buckets
    riesgo_deuda :=
      { total_deuda := deuda
        organismos := orgs
        antiguedad_max_meses := ant_meses
        accion_sugerida :=
          if deuda > 0 then some "Evaluar plan de pagos" else none }
    estado_comunicacion := info_c }

/-! ## Infrastructure lemmas -/

section DedupeLemmas

variable {α κ : Type} [DecidableEq κ] (key : α → κ)

theorem mem_of_mem_dedupeByAux {seen : List κ} {l : List α} {x : α}
    (h : x ∈ dedupeByAux key seen l) : x ∈ l := by
  induction l generalizing seen with
  | nil => simp [dedupeByAux] at h
  | cons hd tl ih =>
    simp only [dedupeByAux] at h
    split at h
    · exact List.mem_cons_of_mem hd (ih h)
    · rcases List.mem_cons.mp h with h1 | h1
      · exact h1 ▸ List.mem_cons_self hd tl
      · exact List.mem_cons_of_mem hd (ih h1)

theorem key_not_seen_of_mem_dedupeByAux {seen : List κ} {l : List α} {x : α}
    (h : x ∈ dedupeByAux key seen l) : key x ∉ seen := by
  induction l generalizing seen with
  | nil => simp [dedupeByAux] at h
  | cons hd tl ih =>
    simp only [dedupeByAux] at h
    split at h
    · exact ih h
    · rcases List.mem_cons.mp h with h1 | h1
      · subst h1; assumption
      · intro hmem
        exact ih h1 (List.mem_cons_of_mem _ hmem)

theorem pairwise_key_dedupeByAux (seen : List κ) (l : List α) :
    (dedupeByAux key seen l).Pairwise (fun a b => key a ≠ key b) := by
  induction l generalizing seen with
  | nil => simp [dedupeByAux]
  | cons hd tl ih =>
    simp only [dedupeByAux]
    split
    · exact ih seen
    · refine List.Pairwise.cons (fun y hy => ?_) (ih (key hd :: seen))
      have := key_not_seen_of_mem_dedupeByAux key hy
      intro he
      exact this (he ▸ List.mem_cons_self _ _)

theorem find?_of_mem_dedupeByAux {seen : List κ} {l : List α} {x : α}
    (h : x ∈ dedupeByAux key seen l) :
    l.find? (fun y => decide (key y = key x)) = some x := by
  induction l generalizing seen with
  | nil => simp [dedupeByAux] at h
  | cons hd tl ih =>
    simp only [dedupeByAux] at h
    split at h
    · rename_i hseen
      have hne : key hd ≠ key x := by
        intro he
        exact key_not_seen_of_mem_dedupeByAux key h (he ▸ hseen)
      rw [List.find?_cons_of_neg _ (by simpa using hne)]
      exact ih h
    · rcases List.mem_cons.mp h with h1 | h1
      · subst h1
        exact List.find?_cons_of_pos _ (by simp)
      · have hne : key hd ≠ key x := by
          intro he
          exact key_not_seen_of_mem_dedupeByAux key h1
            (he ▸ List.mem_cons_self _ _)
        rw [List.find?_cons_of_neg _ (by simpa using hne)]
        exact ih h1

theorem pairwise_key_dedupeBy (l : List α) :
    (dedupeBy key l).Pairwise (fun a b => key a ≠ key b) :=
  pairwise_key_dedupeByAux key [] l

theorem find?_of_mem_dedupeBy {l : List α} {x : α} (h : x ∈ dedupeBy key l) :
    l.find? (fun y => decide (key y = key x)) = some x :=
  find?_of_mem_dedupeByAux key h

theorem mem_of_mem_dedupeBy {l : List α} {x : α} (h : x ∈ dedupeBy key l) :
    x ∈ l :=
  mem_of_mem_dedupeByAux key h

end DedupeLemmas

/-- The agenda sort key as a nested lexicographic product. -/
def agendaKey3 (a : AgendaEntry) : Lex (Int × Lex (String × String)) :=
  toLex (rd a.fecha_vto, toLex (a.cliente, a.impuesto))

theorem agendaLe_iff_key3 (a b : AgendaEntry) :
    agendaLe a b ↔ agendaKey3 a ≤ agendaKey3 b := by
  unfold agendaLe agendaKey3
  rw [Prod.Lex.le_iff, Prod.Lex.le_iff]

instance agendaLeTotal : IsTotal AgendaEntry agendaLe :=
  ⟨fun a b => by
    rcases le_total (agendaKey3 a) (agendaKey3 b) with h | h
    · exact Or.inl ((agendaLe_iff_key3 a b).mpr h)
    · exact Or.inr ((agendaLe_iff_key3 b a).mpr h)⟩

instance agendaLeTrans : IsTrans AgendaEntry agendaLe :=
  ⟨fun a b c h1 h2 =>
    (agendaLe_iff_key3 a c).mpr
      (le_trans ((agendaLe_iff_key3 a b).mp h1) ((agendaLe_iff_key3 b c).mp h2))⟩

instance bucketRowLeTotal : IsTotal BucketRow bucketRowLe :=
  ⟨fun x y => by
    unfold bucketRowLe bucketLeB
    rcases x.dias_restantes with _ | a <;> rcases y.dias_restantes with _ | b <;>
      simp <;> omega⟩

theorem score_vencimientos_le (b : Buckets) : score_vencimientos b ≤ 40 := by
  unfold score_vencimientos
  have h1 := Nat.min_le_left 30 (b.criticos.length * 15)
  have h2 := Nat.min_le_left 10 (b.proximos.length * 3)
  omega

theorem score_deuda_le (t a : Int) : score_deuda t a ≤ 40 := by
  unfold score_deuda
  exact Nat.min_le_left _ _

theorem score_comunicacion_le (rows : List ComRow) (hoy : DateD) :
    (score_comunicacion rows hoy).1 ≤ 20 := by
  unfold score_comunicacion
  split
  · exact Nat.zero_le 20
  · exact Nat.min_le_left _ _

instance bucketRowLeTrans : IsTrans BucketRow bucketRowLe :=
  ⟨fun x y z hxy hyz => by
    unfold bucketRowLe bucketLeB at hxy hyz ⊢
    generalize x.dias_restantes = dx at hxy ⊢
    generalize y.dias_restantes = dy at hxy hyz
    generalize z.dias_restantes = dz at hyz ⊢
    rcases dx with _ | a <;> rcases dy with _ | b <;> rcases dz with _ | c <;>
      simp_all <;> omega⟩

/-! ## Concrete fixtures used by counterexamples and witnesses -/

/-- Reference date 2024-06-01 used by the concrete scenarios. -/
def hoyJun : DateD := ⟨2024, 6, 1⟩

/-- A client registered for IVA whose tax id ends in 3. -/
def cliIva : ClienteRow :=
  ⟨.str "203", .str "ACME", .na, .na, .str "SI", .na, .na, .na⟩

/-- A well-formed IVA rule matching `cliIva` (month 6, day 20, cohort 3). -/
def vtoGood : VencRow :=
  ⟨.str "IVA", .str "ARCA", .str "3", .str "6", .str "20"⟩

/-- A rule like `vtoGood` but with a non-numeric month cell. -/
def vtoBadMes : VencRow :=
  ⟨.str "IVA", .str "ARCA", .str "3", .str "X", .str "10"⟩

/-- A rule whose cohort string parses to no digits at all. -/
def vtoBadTerm : VencRow :=
  ⟨.str "IVA", .str "ARCA", .str "X-Y", .str "6", .str "25"⟩

/-- The agenda entry `generar_agenda_general [cliIva] [vtoGood] hoyJun`
produces. -/
def entryGood : AgendaEntry :=
  ⟨"203", "ACME", "IVA", "ARCA", "2024-06", ⟨2024, 6, 20⟩, 19, "🟢"⟩

/-- Agenda slice with 2 critical and 4 near entries (urgency sub-score
saturated at 30 + 10). -/
def cexC1Vtos : List RiVtoRow :=
  [⟨.na, .na, .na, .na, .int 3⟩, ⟨.na, .na, .na, .na, .int 5⟩,
   ⟨.na, .na, .na, .na, .int 10⟩, ⟨.na, .na, .na, .na, .int 12⟩,
   ⟨.na, .na, .na, .na, .int 15⟩, ⟨.na, .na, .na, .na, .int 20⟩]

/-- One debt of 600,000 last updated 215 days (7 months) before
`hoyJun` (debt sub-score saturated at 30 + 10). -/
def cexDeudas : List DeudaRow :=
  [⟨.int 600000, .str "ARCA", .date 2023 10 30, .na⟩]

/-- Two pending communications, the newest 20 days old (communication
sub-score saturated at 15 + 5). -/
def cexC1Coms : List ComRow :=
  [⟨.date 2024 5 12, .str "PENDIENTE", .na⟩,
   ⟨.date 2024 4 1, .str "PENDIENTE", .na⟩]

/-- The C3 scenario agenda slice: exactly one critical entry (3 days). -/
def cexC3Vtos : List RiVtoRow :=
  [⟨.str "IVA", .str "ARCA", .str "2024-05", .date 2024 5 20, .int 3⟩]

/-- The C3 scenario communication log: one pending event 20 days old. -/
def cexC3Coms : List ComRow :=
  [⟨.date 2024 5 12, .str "PENDIENTE", .str "WhatsApp"⟩]

instance exceptDecEq {ε α : Type} [DecidableEq ε] [DecidableEq α] :
    DecidableEq (Except ε α) := fun x y =>
  match x, y with
  | .error a, .error b =>
    if h : a = b then isTrue (congrArg Except.error h)
    else isFalse (fun hc => h (Except.error.inj hc))
  | .error _, .ok _ => isFalse (fun hc => Except.noConfusion hc)
  | .ok _, .error _ => isFalse (fun hc => Except.noConfusion hc)
  | .ok a, .ok b =>
    if h : a = b then isTrue (congrArg Except.ok h)
    else isFalse (fun hc => h (Except.ok.inj hc))

/-- A rule row whose parsed cohort list is empty matches no client digit,
so its loop iteration appends nothing and raises nothing. -/
theorem procesar_vto_skip (resp : List (String × String)) (dig : Int)
    (cuitS clienteS : String) (vto : VencRow) (hoy : DateD)
    (h : parse_terminacion vto.terminacion = []) :
    procesar_vto resp dig cuitS clienteS vto hoy = .ok none := by
  unfold procesar_vto
  rw [h]
  simp

theorem registros_vtos_skip (resp : List (String × String)) (dig : Int)
    (cuitS clienteS : String) (hoy : DateD) (v1 v2 : List VencRow)
    (r : VencRow) (h : parse_terminacion r.terminacion = []) :
    registros_vtos resp dig cuitS clienteS hoy (v1 ++ r :: v2)
      = registros_vtos resp dig cuitS clienteS hoy (v1 ++ v2) := by
  induction v1 with
  | nil =>
    simp only [List.nil_append, registros_vtos,
      procesar_vto_skip resp dig cuitS clienteS r hoy h]
    cases h2 : registros_vtos resp dig cuitS clienteS hoy v2 <;> rfl
  | cons a v1 ih =>
    simp only [List.cons_append, registros_vtos, List.append_eq]
    rw [ih]

theorem registros_cliente_skip (cli : ClienteRow) (v1 v2 : List VencRow)
    (r : VencRow) (hoy : DateD) (h : parse_terminacion r.terminacion = []) :
    registros_cliente cli (v1 ++ r :: v2) hoy
      = registros_cliente cli (v1 ++ v2) hoy := by
  unfold registros_cliente
  split
  · rfl
  · split
    · rfl
    · split
      · rfl
      · split
        · rfl
        · exact registros_vtos_skip _ _ _ _ hoy v1 v2 r h

theorem registros_skip (clientes : List ClienteRow) (v1 v2 : List VencRow)
    (r : VencRow) (hoy : DateD) (h : parse_terminacion r.terminacion = []) :
    registros clientes (v1 ++ r :: v2) hoy
      = registros clientes (v1 ++ v2) hoy := by
  induction clientes with
  | nil => rfl
  | cons cli rest ih =>
    simp only [registros]
    rw [registros_cliente_skip cli v1 v2 r hoy h, ih]

/-- A client whose registration flags activate no pair is skipped by the
`continue` guard before the rule loop. -/
theorem registros_cliente_no_resp (cli : ClienteRow) (v : List VencRow)
    (hoy : DateD) (h : responsabilidades_cliente cli = []) :
    registros_cliente cli v hoy = .ok [] := by
  unfold registros_cliente
  split
  · rfl
  · split
    · rfl
    · split
      · rfl
      · rfl

theorem registros_drop_cliente (c1 c2 : List ClienteRow) (cli : ClienteRow)
    (v : List VencRow) (hoy : DateD)
    (h : responsabilidades_cliente cli = []) :
    registros (c1 ++ cli :: c2) v hoy = registros (c1 ++ c2) v hoy := by
  induction c1 with
  | nil =>
    simp only [List.nil_append, registros,
      registros_cliente_no_resp cli v hoy h]
    cases h2 : registros c2 v hoy <;> rfl
  | cons a c1 ih =>
    simp only [List.cons_append, registros, List.append_eq]
    rw [ih]

theorem length_rows_to_list (part : List RiVtoRow) :
    (rows_to_list part).length = part.length := by
  unfold rows_to_list
  rw [(List.perm_insertionSort bucketRowLe (part.map toDisplay)).length_eq,
    List.length_map]

theorem mem_rows_to_list {x : BucketRow} {part : List RiVtoRow} :
    x ∈ rows_to_list part ↔ x ∈ part.map toDisplay :=
  (List.perm_insertionSort bucketRowLe (part.map toDisplay)).mem_iff

/-- Membership of a row's display image in a filtered-and-sorted bucket is
decided by the mask alone, for masks that only read the coerced
days-remaining value. -/
theorem mem_bucket_iff (p : RiVtoRow → Bool)
    (hp : ∀ a b : RiVtoRow,
      cellNum a.dias_restantes = cellNum b.dias_restantes → p a = p b)
    {rows : List RiVtoRow} {r : RiVtoRow} (hr : r ∈ rows) :
    toDisplay r ∈ rows_to_list (rows.filter p) ↔ p r = true := by
  rw [mem_rows_to_list]
  constructor
  · intro h
    rcases List.mem_map.mp h with ⟨a, ha, heq⟩
    rcases List.mem_filter.mp ha with ⟨_, hpa⟩
    have hdias : cellNum a.dias_restantes = cellNum r.dias_restantes :=
      congrArg BucketRow.dias_restantes heq
    rw [← hp a r hdias]
    exact hpa
  · intro h
    exact List.mem_map_of_mem toDisplay (List.mem_filter.mpr ⟨hr, h⟩)

theorem critB_dias (a b : RiVtoRow)
    (h : cellNum a.dias_restantes = cellNum b.dias_restantes) :
    critB a = critB b := by
  unfold critB
  rw [h]

theorem proxB_dias (a b : RiVtoRow)
    (h : cellNum a.dias_restantes = cellNum b.dias_restantes) :
    proxB a = proxB b := by
  unfold proxB
  rw [h]

theorem futB_dias (a b : RiVtoRow)
    (h : cellNum a.dias_restantes = cellNum b.dias_restantes) :
    futB a = futB b := by
  unfold futB
  rw [h]

/-! ## Claim theorems -/

/-- C1 (counterexample): at an input with 2 critical and 4 near agenda
entries, a 600,000 debt aged 7 months and 2 pending communications 20 days
old, the composite score is 100, exceeding the claimed bound of 90. -/
theorem claim_C1_counterexample :
    (ri_pro_cliente cexC1Vtos cexDeudas cexC1Coms hoyJun).resumen.score = 100
      ∧ ¬(ri_pro_cliente cexC1Vtos cexDeudas cexC1Coms hoyJun).resumen.score
          ≤ 90 := by
  decide

/-- C1 (amended): for every combination of agenda entries, debt records
and communication events, the composite risk score `resumen.score` equals
the sum of the three component scores and never exceeds 100 (the
per-component caps are 40, 40 and 20). -/
theorem claim_C1_amended (v : List RiVtoRow) (d : List DeudaRow)
    (c : List ComRow) (hoy : DateD) :
    (ri_pro_cliente v d c hoy).resumen.score
        = (ri_pro_cliente v d c hoy).resumen.composicion.vencimientos
          + (ri_pro_cliente v d c hoy).resumen.composicion.deudas
          + (ri_pro_cliente v d c hoy).resumen.composicion.comunicacion
      ∧ (ri_pro_cliente v d c hoy).resumen.score ≤ 100 := by
  refine ⟨rfl, ?_⟩
  show score_vencimientos (vencimientos_buckets v)
      + score_deuda (deuda_total d) (antiguedad_max_meses d hoy)
      + (score_comunicacion c hoy).1 ≤ 100
  have h1 := score_vencimientos_le (vencimientos_buckets v)
  have h2 := score_deuda_le (deuda_total d) (antiguedad_max_meses d hoy)
  have h3 := score_comunicacion_le c hoy
  omega

/-- C3 (counterexample): on the scenario input (1 critical agenda entry,
debt 600,000 aged 7 months, 1 pending communication 20 days old) the
communication score is 13 = min(15, 1·8) + 5, not 20, and the composite is
68, not 75. -/
theorem claim_C3_counterexample :
    deuda_total cexDeudas = 600000
      ∧ antiguedad_max_meses cexDeudas hoyJun = 7
      ∧ (vencimientos_buckets cexC3Vtos).criticos.length = 1
      ∧ (ri_pro_cliente cexC3Vtos cexDeudas cexC3Coms
          hoyJun).estado_comunicacion.dias_sin_respuesta = some 20
      ∧ (ri_pro_cliente cexC3Vtos cexDeudas cexC3Coms
          hoyJun).resumen.composicion.comunicacion = 13
      ∧ (ri_pro_cliente cexC3Vtos cexDeudas cexC3Coms
          hoyJun).resumen.composicion.comunicacion ≠ 20
      ∧ (ri_pro_cliente cexC3Vtos cexDeudas cexC3Coms
          hoyJun).resumen.score = 68
      ∧ (ri_pro_cliente cexC3Vtos cexDeudas cexC3Coms
          hoyJun).resumen.score ≠ 75 := by
  decide

/-- C3 (amended): on the scenario input the engine returns due-date score
15, debt score 40, communication score 13, composite 68, level "CRÍTICO"
and suggested action "Evaluar pago o plan de pagos". -/
theorem claim_C3_amended :
    (ri_pro_cliente cexC3Vtos cexDeudas cexC3Coms hoyJun).resumen.composicion
        = ⟨15, 40, 13, 68⟩
      ∧ (ri_pro_cliente cexC3Vtos cexDeudas cexC3Coms hoyJun).resumen.nivel
          = "CRÍTICO"
      ∧ (ri_pro_cliente cexC3Vtos cexDeudas cexC3Coms
          hoyJun).resumen.accion_sugerida = "Evaluar pago o plan de pagos" := by
  decide

/-- C4 (counterexample): a client with no agenda entries, no debts and no
communications gets the issue tag "Comunicación: SIN HISTORIAL", so the
chips list is not empty (the code only suppresses the tag for statuses
"—" and "OK", not for "SIN HISTORIAL"). -/
theorem claim_C4_counterexample :
    (ri_pro_cliente [] [] [] ⟨2025, 1, 1⟩).resumen.chips
        = ["Comunicación: SIN HISTORIAL"]
      ∧ (ri_pro_cliente [] [] [] ⟨2025, 1, 1⟩).resumen.chips ≠ [] := by
  decide

/-- C4 (amended): for a client with no agenda entries, no debt records and
no communication events the engine returns composite 0, level "BAJO",
action "Operación normal", communication status "SIN HISTORIAL", and the
single issue tag "Comunicación: SIN HISTORIAL" (the tag is emitted
whenever the status is neither "—" nor "OK"). -/
theorem claim_C4_amended (hoy : DateD) :
    (ri_pro_cliente [] [] [] hoy).resumen.score = 0
      ∧ (ri_pro_cliente [] [] [] hoy).resumen.nivel = "BAJO"
      ∧ (ri_pro_cliente [] [] [] hoy).resumen.accion_sugerida
          = "Operación normal"
      ∧ (ri_pro_cliente [] [] [] hoy).estado_comunicacion.estado
          = "SIN HISTORIAL"
      ∧ (ri_pro_cliente [] [] [] hoy).resumen.chips
          = ["Comunicación: SIN HISTORIAL"] :=
  ⟨rfl, rfl, rfl, rfl, rfl⟩

/-- C6: an agenda entry lands in the critical bucket iff its days-remaining
value is ≤ 7 (so exactly 7 is critical, not near), in the near bucket iff
it is in [8, 30], in the future bucket iff it is > 30, and the due-date
urgency score is min(30, criticalCount·15) + min(10, nearCount·3). -/
theorem claim_C6 (rows : List RiVtoRow) :
    (∀ r ∈ rows,
      (toDisplay r ∈ (vencimientos_buckets rows).criticos
          ↔ ∃ d, cellNum r.dias_restantes = some d ∧ d ≤ 7)
        ∧ (toDisplay r ∈ (vencimientos_buckets rows).proximos
          ↔ ∃ d, cellNum r.dias_restantes = some d ∧ 8 ≤ d ∧ d ≤ 30)
        ∧ (toDisplay r ∈ (vencimientos_buckets rows).futuros
          ↔ ∃ d, cellNum r.dias_restantes = some d ∧ 30 < d))
      ∧ score_vencimientos (vencimientos_buckets rows)
          = min 30 (rows.countP critB * 15)
            + min 10 (rows.countP proxB * 3) := by
  constructor
  · intro r hr
    have hne : rows.isEmpty = false := by
      cases rows with
      | nil => cases hr
      | cons a l => rfl
    have hb : vencimientos_buckets rows
        = ⟨rows_to_list (rows.filter critB), rows_to_list (rows.filter proxB),
            rows_to_list (rows.filter futB)⟩ := by
      unfold vencimientos_buckets
      rw [hne]
      rfl
    rw [hb]
    refine ⟨?_, ?_, ?_⟩
    · rw [mem_bucket_iff critB critB_dias hr]
      unfold critB
      rcases cellNum r.dias_restantes with _ | d <;> simp
    · rw [mem_bucket_iff proxB proxB_dias hr]
      unfold proxB
      rcases cellNum r.dias_restantes with _ | d <;> simp
    · rw [mem_bucket_iff futB futB_dias hr]
      unfold futB
      rcases cellNum r.dias_restantes with _ | d <;> simp
  · cases rows with
    | nil => rfl
    | cons a l =>
      show score_vencimientos
          ⟨rows_to_list ((a :: l).filter critB),
            rows_to_list ((a :: l).filter proxB),
            rows_to_list ((a :: l).filter futB)⟩ = _
      unfold score_vencimientos
      rw [length_rows_to_list, length_rows_to_list,
        ← List.countP_eq_length_filter, ← List.countP_eq_length_filter]

/-- A row sitting exactly on the 7-day boundary. -/
def wRow7 : RiVtoRow := ⟨.na, .na, .na, .na, .int 7⟩

theorem claim_C6_witness :
    toDisplay wRow7 ∈ (vencimientos_buckets [wRow7]).criticos :=
  ((claim_C6 [wRow7]).1 wRow7 (List.mem_singleton.mpr rfl)).1.mpr
    ⟨7, rfl, by decide⟩

/-- C2 (counterexample): one well-formed rule alone yields an agenda, but
adding a rule with a non-numeric month cell makes the whole batch raise
`ValueError` from `int(vto.get("mes"))` instead of skipping that row. -/
theorem claim_C2_counterexample :
    generar_agenda_general [cliIva] [vtoGood, vtoBadMes] hoyJun
        = .error "ValueError: invalid literal for int"
      ∧ generar_agenda_general [cliIva] [vtoGood] hoyJun = .ok [entryGood] := by
  decide

/-- C2 (amended): a rule row whose cohort string parses to no digits is
skipped silently at the row level — removing it does not change the batch
result — but a matched rule row with a non-numeric month or day raises and
aborts the whole batch (see the counterexample). -/
theorem claim_C2_amended (clientes : List ClienteRow) (v1 v2 : List VencRow)
    (r : VencRow) (hoy : DateD)
    (hterm : parse_terminacion r.terminacion = []) :
    generar_agenda_general clientes (v1 ++ r :: v2) hoy
      = generar_agenda_general clientes (v1 ++ v2) hoy := by
  unfold generar_agenda_general
  rw [registros_skip clientes v1 v2 r hoy hterm]

theorem claim_C2_amended_witness :
    parse_terminacion vtoBadTerm.terminacion = []
      ∧ generar_agenda_general [cliIva] ([vtoGood] ++ vtoBadTerm :: []) hoyJun
        = generar_agenda_general [cliIva] ([vtoGood] ++ []) hoyJun :=
  ⟨by decide,
    claim_C2_amended [cliIva] [vtoGood] [] vtoBadTerm hoyJun (by decide)⟩

/-- C5: every emitted agenda entry carries the estimated period built from
the reference year when the rule's month is ≤ the reference month and the
prior year otherwise, a due date always assembled from the rule's
month/day and the reference date's year, and a days-remaining value equal
to the signed day difference between due date and reference date. -/
theorem claim_C5 (resp : List (String × String)) (dig : Int)
    (cuitS clienteS : String) (vto : VencRow) (hoy : DateD) (m d : Int)
    (e : AgendaEntry)
    (hm : pyInt vto.mes = .ok m) (hd : pyInt vto.dia = .ok d)
    (he : procesar_vto resp dig cuitS clienteS vto hoy = .ok (some e)) :
    e.periodo_estimado
        = toString (if m ≤ hoy.month then hoy.year else hoy.year - 1)
          ++ "-" ++ pad2 m
      ∧ e.fecha_vto = ⟨hoy.year, m, d⟩
      ∧ e.dias_restantes = rd e.fecha_vto - rd hoy := by
  unfold procesar_vto at he
  split at he
  · exact Option.noConfusion (Except.ok.inj he)
  · split at he
    · exact Option.noConfusion (Except.ok.inj he)
    · rw [hm] at he
      rw [hd] at he
      split at he
      · rename_i msg heq
        exact Except.noConfusion heq
      · rename_i mes heq
        have hmeq : m = mes := Except.ok.inj heq
        subst hmeq
        split at he
        · rename_i msg heq2
          exact Except.noConfusion heq2
        · rename_i dia heq2
          have hdeq : d = dia := Except.ok.inj heq2
          subst hdeq
          split at he
          · exact Except.noConfusion he
          · rename_i fv heq3
            unfold construir_fecha_vto at heq3
            split at heq3
            · have hfv : (⟨hoy.year, m, d⟩ : DateD) = fv := Except.ok.inj heq3
              subst hfv
              have hrec := Option.some.inj (Except.ok.inj he)
              subst hrec
              exact ⟨rfl, rfl, rfl⟩
            · exact Except.noConfusion heq3

theorem claim_C5_witness :
    entryGood.periodo_estimado
        = toString (if (6 : Int) ≤ hoyJun.month then hoyJun.year
            else hoyJun.year - 1) ++ "-" ++ pad2 6
      ∧ entryGood.fecha_vto = ⟨hoyJun.year, 6, 20⟩
      ∧ entryGood.dias_restantes = rd entryGood.fecha_vto - rd hoyJun :=
  claim_C5 [("IVA", "ARCA")] 3 "203" "ACME" vtoGood hoyJun 6 20 entryGood
    (by decide) (by decide) (by decide)

/-- C7: the agenda returned by the matcher has pairwise-distinct
deduplication keys (cuit, impuesto, organismo, periodo_estimado); it is
sorted ascending by due date, then client name, then tax-type; and every
returned entry is the first entry with its key in the generated
`registros` list. -/
theorem claim_C7 (clientes : List ClienteRow) (v : List VencRow)
    (hoy : DateD) (regs ag : List AgendaEntry)
    (hreg : registros clientes v hoy = .ok regs)
    (hag : generar_agenda_general clientes v hoy = .ok ag) :
    ag.Pairwise (fun a b => agendaKey a ≠ agendaKey b)
      ∧ ag.Pairwise agendaLe
      ∧ ∀ e ∈ ag, regs.find? (fun y => decide (agendaKey y = agendaKey e))
          = some e := by
  have hag2 : ag = sortAgenda (dedupeBy agendaKey regs) := by
    unfold generar_agenda_general at hag
    rw [hreg] at hag
    exact (Except.ok.inj hag).symm
  subst hag2
  have hperm := List.perm_insertionSort agendaLe (dedupeBy agendaKey regs)
  have hsym : Symmetric (fun a b : AgendaEntry => agendaKey a ≠ agendaKey b) :=
    fun _ _ hne he => hne he.symm
  refine ⟨?_, ?_, ?_⟩
  · exact (List.Perm.pairwise_iff (fun {a b} hab => hsym hab) hperm).mpr
      (pairwise_key_dedupeBy agendaKey regs)
  · exact List.sorted_insertionSort agendaLe (dedupeBy agendaKey regs)
  · intro e he
    exact find?_of_mem_dedupeBy agendaKey (hperm.mem_iff.mp he)

theorem claim_C7_witness :
    ([entryGood] : List AgendaEntry).Pairwise
        (fun a b => agendaKey a ≠ agendaKey b)
      ∧ ([entryGood] : List AgendaEntry).Pairwise agendaLe
      ∧ ∀ e ∈ ([entryGood] : List AgendaEntry),
          [entryGood, entryGood].find?
            (fun y => decide (agendaKey y = agendaKey e)) = some e :=
  claim_C7 [cliIva] [vtoGood, vtoGood] hoyJun [entryGood, entryGood]
    [entryGood] (by decide) (by decide)

/-- A client row with every registration flag missing. -/
def cliNoFlags : ClienteRow :=
  ⟨.str "204", .str "BETA", .na, .na, .na, .na, .na, .na⟩

/-- C8: a client whose registration flags activate no (tax-type,
authority) pair contributes zero agenda entries — removing that client row
leaves the matcher's output unchanged, and the run is a normal outcome,
not an error. -/
theorem claim_C8 (c1 c2 : List ClienteRow) (cli : ClienteRow)
    (v : List VencRow) (hoy : DateD)
    (h : responsabilidades_cliente cli = []) :
    generar_agenda_general (c1 ++ cli :: c2) v hoy
      = generar_agenda_general (c1 ++ c2) v hoy := by
  unfold generar_agenda_general
  rw [registros_drop_cliente c1 c2 cli v hoy h]

theorem claim_C8_witness :
    responsabilidades_cliente cliNoFlags = []
      ∧ generar_agenda_general ([cliIva] ++ cliNoFlags :: []) [vtoGood] hoyJun
        = generar_agenda_general ([cliIva] ++ []) [vtoGood] hoyJun :=
  ⟨by decide, claim_C8 [cliIva] [] cliNoFlags [vtoGood] hoyJun (by decide)⟩

/-- C9: both engines are pure functions of their input snapshots and the
reference date; two invocations on equal inputs return equal (identically
ordered) outputs. -/
theorem claim_C9 (cs1 cs2 : List ClienteRow) (vs1 vs2 : List VencRow)
    (h1 h2 : DateD) (as1 as2 : List RiVtoRow) (ds1 ds2 : List DeudaRow)
    (ms1 ms2 : List ComRow)
    (hc : cs1 = cs2) (hv : vs1 = vs2) (hh : h1 = h2) (ha : as1 = as2)
    (hd : ds1 = ds2) (hm : ms1 = ms2) :
    generar_agenda_general cs1 vs1 h1 = generar_agenda_general cs2 vs2 h2
      ∧ ri_pro_cliente as1 ds1 ms1 h1 = ri_pro_cliente as2 ds2 ms2 h2 := by
  subst hc hv hh ha hd hm
  exact ⟨rfl, rfl⟩

theorem claim_C9_witness :
    generar_agenda_general [cliIva] [vtoGood] hoyJun
        = generar_agenda_general [cliIva] [vtoGood] hoyJun
      ∧ ri_pro_cliente cexC3Vtos cexDeudas cexC3Coms hoyJun
        = ri_pro_cliente cexC3Vtos cexDeudas cexC3Coms hoyJun :=
  claim_C9 [cliIva] [cliIva] [vtoGood] [vtoGood] hoyJun hoyJun cexC3Vtos
    cexC3Vtos cexDeudas cexDeudas cexC3Coms cexC3Coms rfl rfl rfl rfl rfl rfl

/-- C10: the agenda frame produced by the matcher carries no
`estado_agenda` column, so the KPI aggregate always reports `vencidas = 0`
and `ok = 0` on it, regardless of how many entries are past due. -/
theorem claim_C10 (clientes : List ClienteRow) (v : List VencRow)
    (hoy : DateD) (ag : List AgendaEntry)
    (hag : generar_agenda_general clientes v hoy = .ok ag) :
    (kpis agendaColumns agendaCell ag).vencidas = 0
      ∧ (kpis agendaColumns agendaCell ag).ok = 0 := by
  have hno : "estado_agenda" ∉ agendaColumns := by decide
  unfold kpis
  split
  · exact ⟨rfl, rfl⟩
  · refine ⟨?_, ?_⟩ <;> simp [hno]

theorem claim_C10_witness :
    (kpis agendaColumns agendaCell [entryGood]).vencidas = 0
      ∧ (kpis agendaColumns agendaCell [entryGood]).ok = 0 :=
  claim_C10 [cliIva] [vtoGood] hoyJun [entryGood] (by decide)

end AgendaOp
